import Mathlib

/-!
Shallow embedding of `src/Fetch_AWS_Details/file.py`, an AWS inventory
script that enumerates regions, collects EC2 instances, RDS instances and
OpenSearch domains per region, concatenates the per-region tables and
exports them.  API calls are modelled as explicit inputs (`Except` values
or response-producing functions); pandas DataFrames are modelled as a
column list plus a row list.
-/

namespace FetchAWS

/-- Python exception model.  The script imports `botocore.exceptions.ClientError`
and most of its `try` blocks catch exactly that class; any other exception
(connection errors, `KeyError`, ...) is a distinct constructor so that
`except ClientError` and `except Exception` can be told apart. -/
inductive PyErr where
  | clientError (msg : String)
  | otherError (msg : String)
deriving DecidableEq, Repr

/-- One entry of the `describe_regions` response: `region['RegionName']`
and `region['OptInStatus']`. -/
structure RegionInfo where
  RegionName : String
  OptInStatus : String
deriving DecidableEq, Repr

/-- The `describe_regions(AllRegions=True)` response: `response['Regions']`. -/
structure DescribeRegionsResponse where
  Regions : List RegionInfo
deriving DecidableEq, Repr

/-- Embedding of `get_all_regions` (file.py lines 5-10): keep the names of the
regions whose `OptInStatus` is `opt-in-not-required` or `opted-in`. -/
def get_all_regions (resp : DescribeRegionsResponse) : List String :=
  (resp.Regions.filter
    (fun r => r.OptInStatus == "opt-in-not-required" || r.OptInStatus == "opted-in")).map
    RegionInfo.RegionName

/-- C1: the region enumerator returns exactly the regions whose opt-in status
is `opt-in-not-required` or `opted-in`: a name is in the result iff some
region entry carries that name together with one of the two eligible
statuses. -/
theorem C1_region_filter (resp : DescribeRegionsResponse) (name : String) :
    name ∈ get_all_regions resp ↔
      ∃ r ∈ resp.Regions, r.RegionName = name ∧
        (r.OptInStatus = "opt-in-not-required" ∨ r.OptInStatus = "opted-in") := by
  simp only [get_all_regions, List.mem_map, List.mem_filter, Bool.or_eq_true, beq_iff_eq]
  constructor
  · rintro ⟨r, ⟨hr, hstat⟩, hname⟩
    exact ⟨r, hr, hname, hstat⟩
  · rintro ⟨r, hr, hname, hstat⟩
    exact ⟨r, ⟨hr, hstat⟩, hname⟩

/-- Lookup in a Python dict that was built by a comprehension over a key/value
pair list (`{tag['Key']: tag['Value'] for tag in ...}`): later pairs overwrite
earlier ones, so `d.get(k)` returns the value of the last pair with key `k`. -/
def dictGet (d : List (String × String)) (k : String) : Option String :=
  (d.reverse.find? (fun p => p.1 == k)).map Prod.snd

/-- Python `d.get(k, default)`. -/
def dictGetD (d : List (String × String)) (k dflt : String) : String :=
  (dictGet d k).getD dflt

/-- Python truthiness of an optional string: `None` and `""` are falsy. -/
def pyTruthyStr : Option String → Bool
  | none => false
  | some s => s != ""

/-- Python `a or b` on optional strings. -/
def pyOrStr (a b : Option String) : Option String :=
  if pyTruthyStr a then a else b

/-- Python truthiness of an optional integer: `None` and `0` are falsy. -/
def pyTruthyInt : Option Int → Bool
  | none => false
  | some n => n != 0

/-- Python `a or b` on optional integers. -/
def pyOrInt (a b : Option Int) : Option Int :=
  if pyTruthyInt a then a else b

/-- Python truthiness of an optional boolean: `None` and `False` are falsy. -/
def pyTruthyBool : Option Bool → Bool
  | none => false
  | some b => b

/-- Python `a or b` on optional booleans. -/
def pyOrBool (a b : Option Bool) : Option Bool :=
  if pyTruthyBool a then a else b

/-- A Python `datetime`: a point value plus an optional timezone, enough to
express `LaunchTime.replace(tzinfo=None)`. -/
structure PyDateTime where
  value : Nat
  tzinfo : Option String
deriving DecidableEq, Repr

/-- Python `dt.replace(tzinfo=None)`. -/
def replaceTzNone (dt : PyDateTime) : PyDateTime :=
  { dt with tzinfo := none }

/-- The `instance['State']` object (`{'Name': ...}`). -/
structure EC2State where
  Name : Option String
deriving DecidableEq, Repr

/-- The `instance['Placement']` object. -/
structure PlacementInfo where
  AvailabilityZone : Option String
deriving DecidableEq, Repr

/-- One instance object of a `describe_instances` response.  Every field the
script reads with `.get` is optional; `Tags` is the raw key/value pair list. -/
structure EC2Instance where
  InstanceId : Option String
  InstanceType : Option String
  State : Option EC2State
  LaunchTime : Option PyDateTime
  PublicIpAddress : Option String
  PrivateIpAddress : Option String
  Placement : Option PlacementInfo
  Tags : Option (List (String × String))
deriving DecidableEq, Repr

/-- One reservation group of a `describe_instances` response. -/
structure Reservation where
  Instances : List EC2Instance
deriving DecidableEq, Repr

/-- A `describe_instances` response: `response.get('Reservations', [])`. -/
structure EC2Response where
  Reservations : List Reservation
deriving DecidableEq, Repr

/-- One output row of the EC2 collector (the dict literal at file.py
lines 24-35). -/
structure EC2Row where
  Region : String
  InstanceId : Option String
  InstanceType : Option String
  State : Option String
  LaunchTime : Option PyDateTime
  PublicIP : Option String
  PrivateIP : Option String
  AvailabilityZone : Option String
  Name : String
  Tags : List (String × String)
deriving DecidableEq, Repr

/-- Builds one EC2 row (file.py lines 23-35).  `tags` is `{}` when
`instance.get('Tags')` is `None` or the empty list, otherwise the dict built
from the pair list; `Name` is `tags.get('Name', '')`. -/
def mkEC2Row (region : String) (inst : EC2Instance) : EC2Row :=
  let tags := inst.Tags.getD []
  { Region := region
    InstanceId := inst.InstanceId
    InstanceType := inst.InstanceType
    State := inst.State.bind EC2State.Name
    LaunchTime := inst.LaunchTime.map replaceTzNone
    PublicIP := inst.PublicIpAddress
    PrivateIP := inst.PrivateIpAddress
    AvailabilityZone := inst.Placement.bind PlacementInfo.AvailabilityZone
    Name := dictGetD tags "Name" ""
    Tags := tags }

/-- The row list built by the nested loop of `fetch_ec2_instances`
(file.py lines 20-35): one row per instance across all reservations. -/
def ec2RowsOf (region : String) (resp : EC2Response) : List EC2Row :=
  resp.Reservations.flatMap (fun res => res.Instances.map (mkEC2Row region))

/-- Embedding of `fetch_ec2_instances` (file.py lines 12-36).  The
`describe_instances` call is passed as an `Except` value; `except ClientError`
turns a `clientError` into the empty table, while any other exception
propagates out of the function. -/
def fetch_ec2_instances (region : String) (call : Except PyErr EC2Response) :
    Except PyErr (List EC2Row) :=
  match call with
  | .error (.clientError _) => .ok []
  | .error e => .error e
  | .ok resp => .ok (ec2RowsOf region resp)

lemma ec2RowsOf_length (region : String) (resp : EC2Response) :
    (ec2RowsOf region resp).length =
      (resp.Reservations.map (fun res => res.Instances.length)).sum := by
  simp [ec2RowsOf, Function.comp_def]

lemma ec2RowsOf_region (region : String) (resp : EC2Response) :
    ∀ row ∈ ec2RowsOf region resp, row.Region = region := by
  intro row hrow
  simp only [ec2RowsOf, List.mem_flatMap, List.mem_map] at hrow
  obtain ⟨res, _, inst, _, rfl⟩ := hrow
  rfl

/-- C5: the compute collector flattens reservations into one row per
instance — the row count is the sum of the instance counts over all
reservations, and every row's Region equals the input region. -/
theorem C5_ec2_flattening (region : String) (resp : EC2Response)
    (rows : List EC2Row)
    (h : fetch_ec2_instances region (.ok resp) = .ok rows) :
    rows.length = (resp.Reservations.map (fun res => res.Instances.length)).sum ∧
      ∀ row ∈ rows, row.Region = region := by
  have hrows : rows = ec2RowsOf region resp := by
    simpa [fetch_ec2_instances] using h.symm
  subst hrows
  exact ⟨ec2RowsOf_length region resp, ec2RowsOf_region region resp⟩

/-- A sample instance used by concrete witnesses. -/
def sampleInst (id : String) : EC2Instance :=
  { InstanceId := some id
    InstanceType := some "t2.micro"
    State := some ⟨some "running"⟩
    LaunchTime := some ⟨100, some "UTC"⟩
    PublicIpAddress := none
    PrivateIpAddress := some "10.0.0.5"
    Placement := some ⟨some "ap-south-1a"⟩
    Tags := some [("Name", "web-1"), ("env", "prod")] }

/-- A sample `describe_instances` response with 2 reservations holding 3 and
0 instances. -/
def sampleEC2Resp : EC2Response :=
  { Reservations :=
      [ ⟨[sampleInst "i-1", sampleInst "i-2", sampleInst "i-3"]⟩, ⟨[]⟩ ] }

/-- C5 witness: on a response with 2 reservations containing 3 and 0
instances, the collector returns exactly 3 rows, each with Region equal to
the input region. -/
theorem C5_ec2_flattening_witness :
    (ec2RowsOf "ap-south-1" sampleEC2Resp).length =
        (sampleEC2Resp.Reservations.map (fun res => res.Instances.length)).sum ∧
      ∀ row ∈ ec2RowsOf "ap-south-1" sampleEC2Resp, row.Region = "ap-south-1" :=
  C5_ec2_flattening "ap-south-1" sampleEC2Resp
    (ec2RowsOf "ap-south-1" sampleEC2Resp) rfl

/-- The `db['Endpoint']` object. -/
structure RDSEndpoint where
  Address : Option String
deriving DecidableEq, Repr

/-- One database object of a `describe_db_instances` response; `TagList` is
the raw key/value pair list. -/
structure DBInstance where
  DBInstanceIdentifier : Option String
  DBInstanceClass : Option String
  Engine : Option String
  EngineVersion : Option String
  DBInstanceStatus : Option String
  Endpoint : Option RDSEndpoint
  AvailabilityZone : Option String
  StorageType : Option String
  AllocatedStorage : Option Int
  TagList : Option (List (String × String))
deriving DecidableEq, Repr

/-- A `describe_db_instances` response: `response.get('DBInstances', [])`. -/
structure RDSResponse where
  DBInstances : List DBInstance
deriving DecidableEq, Repr

/-- One output row of the RDS collector (the dict literal at file.py
lines 48-60).  The column named `AllocatedStorage (GB)` in the source is the
field `AllocatedStorageGB` here.  Note the row has no Tags field: only the
derived Name. -/
structure RDSRow where
  Region : String
  DBInstanceIdentifier : Option String
  DBInstanceClass : Option String
  Engine : Option String
  EngineVersion : Option String
  DBInstanceStatus : Option String
  Endpoint : Option String
  AvailabilityZone : Option String
  StorageType : Option String
  AllocatedStorageGB : Option Int
  Name : String
deriving DecidableEq, Repr

/-- The Name expression of the RDS row (file.py line 59): `''` when
`db.get('TagList')` is falsy, otherwise the Value of the first tag whose Key
is `Name`, defaulting to `''`. -/
def rdsNameOf (tagList : Option (List (String × String))) : String :=
  match tagList with
  | none => ""
  | some l =>
    if l.isEmpty then ""
    else ((l.find? (fun p => p.1 == "Name")).map Prod.snd).getD ""

/-- Builds one RDS row (file.py lines 48-60). -/
def mkRDSRow (region : String) (db : DBInstance) : RDSRow :=
  { Region := region
    DBInstanceIdentifier := db.DBInstanceIdentifier
    DBInstanceClass := db.DBInstanceClass
    Engine := db.Engine
    EngineVersion := db.EngineVersion
    DBInstanceStatus := db.DBInstanceStatus
    Endpoint := db.Endpoint.bind RDSEndpoint.Address
    AvailabilityZone := db.AvailabilityZone
    StorageType := db.StorageType
    AllocatedStorageGB := db.AllocatedStorage
    Name := rdsNameOf db.TagList }

/-- The row list built by the loop of `fetch_rds_instances`
(file.py lines 46-60). -/
def rdsRowsOf (region : String) (resp : RDSResponse) : List RDSRow :=
  resp.DBInstances.map (mkRDSRow region)

/-- Embedding of `fetch_rds_instances` (file.py lines 38-61): a `ClientError`
on `describe_db_instances` yields the empty table; any other exception
propagates. -/
def fetch_rds_instances (region : String) (call : Except PyErr RDSResponse) :
    Except PyErr (List RDSRow) :=
  match call with
  | .error (.clientError _) => .ok []
  | .error e => .error e
  | .ok resp => .ok (rdsRowsOf region resp)

/-- The cluster-configuration object, used for both `ClusterConfig` and the
legacy `ElasticsearchClusterConfig`. -/
structure ClusterConfig where
  InstanceType : Option String
  InstanceCount : Option Int
  DedicatedMasterEnabled : Option Bool
  ZoneAwarenessEnabled : Option Bool
deriving DecidableEq, Repr

/-- The `{}` default of `details.get('ClusterConfig', {})`: a config with no
fields, every `.get` on it returning `None`. -/
def emptyClusterConfig : ClusterConfig :=
  ⟨none, none, none, none⟩

/-- The `describe_domain(...)['DomainStatus']` object.  `Created` and
`Deleted` are the boolean creation/deletion markers. -/
structure DomainStatus where
  EngineVersion : Option String
  ElasticsearchVersion : Option String
  Endpoint : Option String
  ARN : Option String
  ClusterConfig : Option FetchAWS.ClusterConfig
  ElasticsearchClusterConfig : Option FetchAWS.ClusterConfig
  Created : Option Bool
  Deleted : Option Bool
deriving DecidableEq, Repr

/-- One entry of `list_domain_names()['DomainNames']`. -/
structure DomainEntry where
  DomainName : String
deriving DecidableEq, Repr

/-- A `list_tags(ARN=...)` response: `tags_response.get('TagList', [])`. -/
structure TagsResponse where
  TagList : Option (List (String × String))
deriving DecidableEq, Repr

/-- One output row of the OpenSearch collector (the dict literal at file.py
lines 87-101). -/
structure OSRow where
  Region : String
  DomainName : String
  EngineVersion : Option String
  Endpoint : Option String
  ARN : Option String
  InstanceType : Option String
  InstanceCount : Option Int
  DedicatedMasterEnabled : Option Bool
  ZoneAwarenessEnabled : Option Bool
  Created : Option Bool
  Deleted : Option Bool
  Name : String
  Tags : List (String × String)
deriving DecidableEq, Repr

/-- Builds one OpenSearch row (file.py lines 87-101).  Each cluster field is
`details.get('ClusterConfig', {}).get(f) or
details.get('ElasticsearchClusterConfig', {}).get(f)`, with Python `or`
falling back whenever the first operand is falsy. -/
def mkOSRow (region domainName : String) (details : DomainStatus)
    (tags : List (String × String)) : OSRow :=
  { Region := region
    DomainName := domainName
    EngineVersion := pyOrStr details.EngineVersion details.ElasticsearchVersion
    Endpoint := details.Endpoint
    ARN := details.ARN
    InstanceType :=
      pyOrStr (details.ClusterConfig.getD emptyClusterConfig).InstanceType
        (details.ElasticsearchClusterConfig.getD emptyClusterConfig).InstanceType
    InstanceCount :=
      pyOrInt (details.ClusterConfig.getD emptyClusterConfig).InstanceCount
        (details.ElasticsearchClusterConfig.getD emptyClusterConfig).InstanceCount
    DedicatedMasterEnabled :=
      pyOrBool (details.ClusterConfig.getD emptyClusterConfig).DedicatedMasterEnabled
        (details.ElasticsearchClusterConfig.getD emptyClusterConfig).DedicatedMasterEnabled
    ZoneAwarenessEnabled :=
      pyOrBool (details.ClusterConfig.getD emptyClusterConfig).ZoneAwarenessEnabled
        (details.ElasticsearchClusterConfig.getD emptyClusterConfig).ZoneAwarenessEnabled
    Created := details.Created
    Deleted := details.Deleted
    Name := dictGetD tags "Name" ""
    Tags := tags }

/-- The tag-fetch step for one domain (file.py lines 80-85): `tags` starts as
`{}`; `details['ARN']` raising `KeyError` or `list_tags` raising anything is
caught by `except Exception: pass`, leaving `{}`. -/
def osTagsOf (details : DomainStatus)
    (tagsApi : String → Except PyErr TagsResponse) : List (String × String) :=
  match details.ARN with
  | none => []
  | some arn =>
    match tagsApi arn with
    | .error _ => []
    | .ok resp => resp.TagList.getD []

/-- The per-domain loop of `fetch_opensearch_domains` (file.py lines 71-101):
a `ClientError` from `describe_domain` skips the domain (`continue`); any
other exception escapes the loop; otherwise a row is appended. -/
def osRowsLoop (region : String)
    (describeApi : String → Except PyErr DomainStatus)
    (tagsApi : String → Except PyErr TagsResponse) :
    List DomainEntry → Except PyErr (List OSRow)
  | [] => .ok []
  | d :: ds =>
    match describeApi d.DomainName with
    | .error (.clientError _) => osRowsLoop region describeApi tagsApi ds
    | .error (.otherError m) => .error (.otherError m)
    | .ok details =>
      match osRowsLoop region describeApi tagsApi ds with
      | .error e => .error e
      | .ok rest =>
        .ok (mkOSRow region d.DomainName details (osTagsOf details tagsApi) :: rest)

/-- Embedding of `fetch_opensearch_domains` (file.py lines 63-102): a
`ClientError` on `list_domain_names` yields the empty table; any other
exception propagates; otherwise the per-domain loop runs. -/
def fetch_opensearch_domains (region : String)
    (listCall : Except PyErr (List DomainEntry))
    (describeApi : String → Except PyErr DomainStatus)
    (tagsApi : String → Except PyErr TagsResponse) : Except PyErr (List OSRow) :=
  match listCall with
  | .error (.clientError _) => .ok []
  | .error e => .error e
  | .ok domains => osRowsLoop region describeApi tagsApi domains

/-- A pandas DataFrame, reduced to what the script observes: its column
labels and its rows. -/
structure PDFrame (ρ : Type) where
  columns : List String
  rows : List ρ
deriving DecidableEq, Repr

/-- `pd.DataFrame()`: no rows and no defined columns. -/
def emptyFrame {ρ : Type} : PDFrame ρ :=
  ⟨[], []⟩

/-- `pd.concat(fs, ignore_index=True)`: rows are concatenated in order and
the column labels are the first-occurrence union of the inputs' columns. -/
def pdConcat {ρ : Type} (fs : List (PDFrame ρ)) : PDFrame ρ :=
  { columns :=
      fs.foldl (fun acc f => acc ++ f.columns.filter (fun c => !(acc.contains c))) []
    rows := (fs.map PDFrame.rows).flatten }

/-- The aggregation step of `main` (file.py lines 136-139):
`pd.concat(all_x, ignore_index=True) if all_x else pd.DataFrame()`. -/
def combineAll {ρ : Type} (fs : List (PDFrame ρ)) : PDFrame ρ :=
  if fs.isEmpty then emptyFrame else pdConcat fs

/-- Column labels of the EC2 collector's rows: the dict keys at file.py
lines 24-35, in order.  The spec maps record field names to spreadsheet
column headers, so these are the columns of the EC2 sheet. -/
def ec2Columns : List String :=
  ["Region", "InstanceId", "InstanceType", "State", "LaunchTime", "PublicIP",
   "PrivateIP", "AvailabilityZone", "Name", "Tags"]

/-- Column labels of the RDS collector's rows: the dict keys at file.py
lines 48-60, in order.  There is no Tags key. -/
def rdsColumns : List String :=
  ["Region", "DBInstanceIdentifier", "DBInstanceClass", "Engine",
   "EngineVersion", "DBInstanceStatus", "Endpoint", "AvailabilityZone",
   "StorageType", "AllocatedStorage (GB)", "Name"]

/-- Column labels of the OpenSearch collector's rows: the dict keys at
file.py lines 87-101, in order. -/
def osColumns : List String :=
  ["Region", "DomainName", "EngineVersion", "Endpoint", "ARN", "InstanceType",
   "InstanceCount", "DedicatedMasterEnabled", "ZoneAwarenessEnabled",
   "Created", "Deleted", "Name", "Tags"]

/-- The per-region accumulation loop of `main` (file.py lines 120-134),
specialised to one resource kind: runs the collector for each region in
order, pairing each region with its table.  An exception escaping a
collector aborts the whole run, mirroring the absence of any try block in
`main`. -/
def gatherRegions {ρ : Type} (collect : String → Except PyErr (List ρ)) :
    List String → Except PyErr (List (String × List ρ))
  | [] => .ok []
  | r :: rs =>
    match collect r with
    | .error e => .error e
    | .ok rows =>
      match gatherRegions collect rs with
      | .error e => .error e
      | .ok rest => .ok ((r, rows) :: rest)

lemma find?_eq_head?_filter {α : Type} (p : α → Bool) (l : List α) :
    l.find? p = (l.filter p).head? := by
  induction l with
  | nil => rfl
  | cons a l ih =>
    by_cases h : p a
    · rw [List.find?_cons_of_pos _ h, List.filter_cons_of_pos h, List.head?_cons]
    · rw [List.find?_cons_of_neg _ h, List.filter_cons_of_neg h, ih]

lemma dictGet_eq (d : List (String × String)) (k : String) :
    dictGet d k = ((d.filter (fun p => p.1 == k)).reverse).head?.map Prod.snd := by
  rw [dictGet, find?_eq_head?_filter, List.filter_reverse]

lemma dictGetD_of_unique_name (d : List (String × String)) (v : String)
    (h : d.filter (fun p => p.1 == "Name") = [("Name", v)]) :
    dictGetD d "Name" "" = v := by
  rw [dictGetD, dictGet_eq, h]
  rfl

lemma dictGetD_of_no_name (d : List (String × String))
    (h : d.filter (fun p => p.1 == "Name") = []) :
    dictGetD d "Name" "" = "" := by
  rw [dictGetD, dictGet_eq, h]
  rfl

lemma rdsNameOf_of_unique_name (d : List (String × String)) (v : String)
    (h : d.filter (fun p => p.1 == "Name") = [("Name", v)]) :
    rdsNameOf (some d) = v := by
  have hne : d.isEmpty = false := by
    cases d with
    | nil => simp at h
    | cons a l => rfl
  rw [rdsNameOf]
  simp only [hne, Bool.false_eq_true, if_false]
  rw [find?_eq_head?_filter, h]
  rfl

lemma rdsNameOf_of_no_name (d : List (String × String))
    (h : d.filter (fun p => p.1 == "Name") = []) :
    rdsNameOf (some d) = "" := by
  rw [rdsNameOf]
  by_cases hd : d.isEmpty
  · simp [hd]
  · simp only [hd, Bool.false_eq_true, if_false]
    rw [find?_eq_head?_filter, h]
    rfl

/-- C6: every collector derives Name from the tag whose key is `Name`.  When
the tag pairs contain exactly one pair with key `Name`, each of the three row
builders sets Name to its value; when no pair has key `Name`, each sets Name
to the empty string. -/
theorem C6_name_derivation (region dn : String) (inst : EC2Instance)
    (db : DBInstance) (details : DomainStatus)
    (pairs : List (String × String)) (v : String)
    (hec2 : inst.Tags = some pairs) (hrds : db.TagList = some pairs) :
    (pairs.filter (fun p => p.1 == "Name") = [("Name", v)] →
      (mkEC2Row region inst).Name = v ∧ (mkRDSRow region db).Name = v ∧
        (mkOSRow region dn details pairs).Name = v) ∧
    (pairs.filter (fun p => p.1 == "Name") = [] →
      (mkEC2Row region inst).Name = "" ∧ (mkRDSRow region db).Name = "" ∧
        (mkOSRow region dn details pairs).Name = "") := by
  constructor
  · intro h
    refine ⟨?_, ?_, ?_⟩
    · simp only [mkEC2Row, hec2, Option.getD_some]
      exact dictGetD_of_unique_name pairs v h
    · simp only [mkRDSRow, hrds]
      exact rdsNameOf_of_unique_name pairs v h
    · exact dictGetD_of_unique_name pairs v h
  · intro h
    refine ⟨?_, ?_, ?_⟩
    · simp only [mkEC2Row, hec2, Option.getD_some]
      exact dictGetD_of_no_name pairs h
    · simp only [mkRDSRow, hrds]
      exact rdsNameOf_of_no_name pairs h
    · exact dictGetD_of_no_name pairs h

/-- A sample database instance used by concrete witnesses. -/
def sampleDB (tl : Option (List (String × String))) : DBInstance :=
  { DBInstanceIdentifier := some "db-1"
    DBInstanceClass := some "db.t3.micro"
    Engine := some "postgres"
    EngineVersion := some "15.3"
    DBInstanceStatus := some "available"
    Endpoint := some ⟨some "db-1.rds.amazonaws.com"⟩
    AvailabilityZone := some "us-east-1a"
    StorageType := some "gp3"
    AllocatedStorage := some 20
    TagList := tl }

/-- A domain-status value with every field empty. -/
def emptyDomainStatus : DomainStatus :=
  ⟨none, none, none, none, none, none, none, none⟩

/-- C6 witness: with tags {Name: web-1, env: prod}, all three collectors
derive Name = web-1; with tags {env: prod}, all three derive the empty
string. -/
theorem C6_name_derivation_witness :
    ((mkEC2Row "us-east-1" (sampleInst "i-1")).Name = "web-1" ∧
      (mkRDSRow "us-east-1"
          (sampleDB (some [("Name", "web-1"), ("env", "prod")]))).Name = "web-1" ∧
      (mkOSRow "us-east-1" "dom-1" emptyDomainStatus
          [("Name", "web-1"), ("env", "prod")]).Name = "web-1") ∧
    ((mkEC2Row "us-east-1"
          { sampleInst "i-1" with Tags := some [("env", "prod")] }).Name = "" ∧
      (mkRDSRow "us-east-1" (sampleDB (some [("env", "prod")]))).Name = "" ∧
      (mkOSRow "us-east-1" "dom-1" emptyDomainStatus [("env", "prod")]).Name = "") := by
  constructor
  · exact (C6_name_derivation "us-east-1" "dom-1" (sampleInst "i-1")
      (sampleDB (some [("Name", "web-1"), ("env", "prod")])) emptyDomainStatus
      [("Name", "web-1"), ("env", "prod")] "web-1" rfl rfl).1 (by decide)
  · exact (C6_name_derivation "us-east-1" "dom-1"
      { sampleInst "i-1" with Tags := some [("env", "prod")] }
      (sampleDB (some [("env", "prod")])) emptyDomainStatus
      [("env", "prod")] "web-1" rfl rfl).2 (by decide)

/-- C4: when the details object is populated only under the legacy field
names (no `EngineVersion`, no `ClusterConfig`), the row's `EngineVersion`,
`InstanceType`, `InstanceCount`, `DedicatedMasterEnabled` and
`ZoneAwarenessEnabled` all come from the legacy `ElasticsearchVersion` and
`ElasticsearchClusterConfig` paths. -/
theorem C4_legacy_fallback (region dn : String) (details : DomainStatus)
    (tags : List (String × String))
    (h1 : details.EngineVersion = none) (h2 : details.ClusterConfig = none) :
    (mkOSRow region dn details tags).EngineVersion = details.ElasticsearchVersion ∧
    (mkOSRow region dn details tags).InstanceType =
      (details.ElasticsearchClusterConfig.getD emptyClusterConfig).InstanceType ∧
    (mkOSRow region dn details tags).InstanceCount =
      (details.ElasticsearchClusterConfig.getD emptyClusterConfig).InstanceCount ∧
    (mkOSRow region dn details tags).DedicatedMasterEnabled =
      (details.ElasticsearchClusterConfig.getD emptyClusterConfig).DedicatedMasterEnabled ∧
    (mkOSRow region dn details tags).ZoneAwarenessEnabled =
      (details.ElasticsearchClusterConfig.getD emptyClusterConfig).ZoneAwarenessEnabled := by
  simp [mkOSRow, h1, h2, pyOrStr, pyOrInt, pyOrBool, pyTruthyStr, pyTruthyInt,
    pyTruthyBool, emptyClusterConfig]

/-- A details object populated only under the legacy field names. -/
def legacyDomainStatus : DomainStatus :=
  { EngineVersion := none
    ElasticsearchVersion := some "7.10"
    Endpoint := some "search-old.example.com"
    ARN := some "arn:aws:es:us-east-1:1:domain/old"
    ClusterConfig := none
    ElasticsearchClusterConfig :=
      some ⟨some "m5.large.search", some 3, some true, some true⟩
    Created := some true
    Deleted := some false }

/-- C4 witness: for a details object carrying only `ElasticsearchVersion`
and `ElasticsearchClusterConfig`, the row fields come from the legacy
paths. -/
theorem C4_legacy_fallback_witness :
    (mkOSRow "us-east-1" "old-dom" legacyDomainStatus []).EngineVersion =
        legacyDomainStatus.ElasticsearchVersion ∧
      (mkOSRow "us-east-1" "old-dom" legacyDomainStatus []).InstanceType =
        (legacyDomainStatus.ElasticsearchClusterConfig.getD emptyClusterConfig).InstanceType ∧
      (mkOSRow "us-east-1" "old-dom" legacyDomainStatus []).InstanceCount =
        (legacyDomainStatus.ElasticsearchClusterConfig.getD emptyClusterConfig).InstanceCount ∧
      (mkOSRow "us-east-1" "old-dom" legacyDomainStatus []).DedicatedMasterEnabled =
        (legacyDomainStatus.ElasticsearchClusterConfig.getD emptyClusterConfig).DedicatedMasterEnabled ∧
      (mkOSRow "us-east-1" "old-dom" legacyDomainStatus []).ZoneAwarenessEnabled =
        (legacyDomainStatus.ElasticsearchClusterConfig.getD emptyClusterConfig).ZoneAwarenessEnabled :=
  C4_legacy_fallback "us-east-1" "old-dom" legacyDomainStatus [] rfl rfl

/-- C10: Python `or` makes the cluster fallbacks trigger on falsy values,
not only on absent ones: if the current-generation ClusterConfig holds
`DedicatedMasterEnabled = False`, `ZoneAwarenessEnabled = False` or
`InstanceCount = 0`, the row carries the legacy
ElasticsearchClusterConfig value for that field. -/
theorem C10_falsy_fallback (region dn : String) (details : DomainStatus)
    (tags : List (String × String)) (cc ecc : ClusterConfig)
    (hcc : details.ClusterConfig = some cc)
    (hecc : details.ElasticsearchClusterConfig = some ecc) :
    (cc.DedicatedMasterEnabled = some false →
      (mkOSRow region dn details tags).DedicatedMasterEnabled =
        ecc.DedicatedMasterEnabled) ∧
    (cc.ZoneAwarenessEnabled = some false →
      (mkOSRow region dn details tags).ZoneAwarenessEnabled =
        ecc.ZoneAwarenessEnabled) ∧
    (cc.InstanceCount = some 0 →
      (mkOSRow region dn details tags).InstanceCount = ecc.InstanceCount) := by
  refine ⟨fun h => ?_, fun h => ?_, fun h => ?_⟩ <;>
    simp [mkOSRow, hcc, hecc, h, pyOrInt, pyOrBool, pyTruthyInt, pyTruthyBool]

/-- A details object whose current-generation cluster config holds only
falsy values while the legacy config holds non-falsy ones. -/
def falsyDomainStatus : DomainStatus :=
  { EngineVersion := some "OpenSearch_2.5"
    ElasticsearchVersion := none
    Endpoint := none
    ARN := some "arn:aws:es:us-east-1:1:domain/falsy"
    ClusterConfig := some ⟨some "r5.large.search", some 0, some false, some false⟩
    ElasticsearchClusterConfig := some ⟨some "m4.large.search", some 5, some true, some true⟩
    Created := some true
    Deleted := some false }

/-- C10 witness: with `ClusterConfig = {InstanceCount: 0,
DedicatedMasterEnabled: False, ZoneAwarenessEnabled: False}` and a legacy
config of `{InstanceCount: 5, DedicatedMasterEnabled: True,
ZoneAwarenessEnabled: True}`, the row carries the legacy values. -/
theorem C10_falsy_fallback_witness :
    (mkOSRow "us-east-1" "falsy-dom" falsyDomainStatus []).DedicatedMasterEnabled =
        some true ∧
      (mkOSRow "us-east-1" "falsy-dom" falsyDomainStatus []).ZoneAwarenessEnabled =
        some true ∧
      (mkOSRow "us-east-1" "falsy-dom" falsyDomainStatus []).InstanceCount = some 5 := by
  have h := C10_falsy_fallback "us-east-1" "falsy-dom" falsyDomainStatus []
    ⟨some "r5.large.search", some 0, some false, some false⟩
    ⟨some "m4.large.search", some 5, some true, some true⟩ rfl rfl
  exact ⟨h.1 rfl, h.2.1 rfl, h.2.2 rfl⟩

/-- C2 counterexample: the primary-listing try blocks catch only
`ClientError`, so a failure that is not a `ClientError` (for example a
connection error) is not turned into an empty table — it propagates. -/
theorem C2_counterexample_other_exception :
    fetch_ec2_instances "us-east-1"
        (.error (.otherError "EndpointConnectionError")) ≠ .ok [] := by
  simp [fetch_ec2_instances]

lemma gather_clienterror_ec2 (regions : List String) (msgf : String → String) :
    gatherRegions
        (fun r => fetch_ec2_instances r (.error (.clientError (msgf r)))) regions =
      .ok (regions.map (fun r => (r, []))) := by
  induction regions with
  | nil => rfl
  | cons r rs ih =>
    have h1 : fetch_ec2_instances r (.error (.clientError (msgf r))) = .ok [] := rfl
    simp [gatherRegions, h1, ih]

/-- C2 amended: a `ClientError` on the primary listing call is caught and
yields the empty table for each of the three collectors, and a run whose
every listing call raises `ClientError` still completes, producing an empty
table per region. -/
theorem C2_clienterror_empty_table (region msg : String)
    (describeApi : String → Except PyErr DomainStatus)
    (tagsApi : String → Except PyErr TagsResponse)
    (regions : List String) (msgf : String → String) :
    fetch_ec2_instances region (.error (.clientError msg)) = .ok [] ∧
    fetch_rds_instances region (.error (.clientError msg)) = .ok [] ∧
    fetch_opensearch_domains region (.error (.clientError msg))
        describeApi tagsApi = .ok [] ∧
    gatherRegions
        (fun r => fetch_ec2_instances r (.error (.clientError (msgf r)))) regions =
      .ok (regions.map (fun r => (r, []))) :=
  ⟨rfl, rfl, rfl, gather_clienterror_ec2 regions msgf⟩

/-- C2 witness: concrete instance of the amended statement. -/
theorem C2_clienterror_empty_table_witness :
    fetch_ec2_instances "eu-west-1" (.error (.clientError "AuthFailure")) = .ok [] ∧
    fetch_rds_instances "eu-west-1" (.error (.clientError "AuthFailure")) = .ok [] ∧
    fetch_opensearch_domains "eu-west-1" (.error (.clientError "AuthFailure"))
        (fun _ => .ok emptyDomainStatus) (fun _ => .ok ⟨some []⟩) = .ok [] ∧
    gatherRegions
        (fun r => fetch_ec2_instances r (.error (.clientError "AuthFailure")))
        ["eu-west-1", "eu-west-2"] =
      .ok (["eu-west-1", "eu-west-2"].map (fun r => (r, []))) :=
  C2_clienterror_empty_table "eu-west-1" "AuthFailure"
    (fun _ => .ok emptyDomainStatus) (fun _ => .ok ⟨some []⟩)
    ["eu-west-1", "eu-west-2"] (fun _ => "AuthFailure")

/-- A describe function that raises a non-ClientError exception on dom-a and
succeeds on dom-b. -/
def osDescribeFail : String → Except PyErr DomainStatus :=
  fun dn =>
    if dn == "dom-a" then .error (.otherError "ReadTimeoutError")
    else .ok emptyDomainStatus

/-- A tags function that always succeeds with no tags. -/
def osTagsOk : String → Except PyErr TagsResponse :=
  fun _ => .ok ⟨some []⟩

/-- C3 counterexample: the per-domain detail fetch catches only
`ClientError`; a non-ClientError failure on one domain aborts the whole
collector instead of skipping that domain, so the other domain is not
processed. -/
theorem C3_counterexample_detail_other_exception :
    fetch_opensearch_domains "us-east-1" (.ok [⟨"dom-a"⟩, ⟨"dom-b"⟩])
        osDescribeFail osTagsOk = .error (.otherError "ReadTimeoutError") ∧
      fetch_opensearch_domains "us-east-1" (.ok [⟨"dom-a"⟩, ⟨"dom-b"⟩])
          osDescribeFail osTagsOk ≠
        .ok [mkOSRow "us-east-1" "dom-b" emptyDomainStatus []] := by
  constructor
  · rfl
  · simp [fetch_opensearch_domains, osRowsLoop, osDescribeFail]

/-- C3 amended: a `ClientError` fetching one domain's details skips exactly
that domain, leaving the remaining domains processed as before; when details
succeed and the tag fetch fails with any exception, the domain is not
skipped — its row is produced with an empty tag mapping and Name equal to
the empty string. -/
theorem C3_per_domain_errors (region dn : String) (ds : List DomainEntry)
    (describeApi : String → Except PyErr DomainStatus)
    (tagsApi : String → Except PyErr TagsResponse)
    (msg arn : String) (details : DomainStatus) (e : PyErr) :
    (describeApi dn = .error (.clientError msg) →
      osRowsLoop region describeApi tagsApi (⟨dn⟩ :: ds) =
        osRowsLoop region describeApi tagsApi ds) ∧
    (describeApi dn = .ok details → details.ARN = some arn →
      tagsApi arn = .error e →
      osRowsLoop region describeApi tagsApi (⟨dn⟩ :: ds) =
          (osRowsLoop region describeApi tagsApi ds).map
            (fun rest => mkOSRow region dn details [] :: rest) ∧
        (mkOSRow region dn details []).Tags = [] ∧
        (mkOSRow region dn details []).Name = "") := by
  constructor
  · intro h
    simp [osRowsLoop, h]
  · intro hdesc harn htags
    have htagsOf : osTagsOf details tagsApi = [] := by
      simp [osTagsOf, harn, htags]
    refine ⟨?_, rfl, rfl⟩
    simp only [osRowsLoop, hdesc, htagsOf]
    cases osRowsLoop region describeApi tagsApi ds <;> rfl

/-- A describe function raising a ClientError on dom-a and succeeding on
dom-b. -/
def osDescribeClientFail : String → Except PyErr DomainStatus :=
  fun dn =>
    if dn == "dom-a" then .error (.clientError "ResourceNotFoundException")
    else .ok legacyDomainStatus

/-- A tags function that always raises. -/
def osTagsFail : String → Except PyErr TagsResponse :=
  fun _ => .error (.otherError "ConnectionClosedError")

/-- C3 witness: a ClientError on dom-a's details skips it while dom-b is
still processed, and a failing tag fetch for a succeeding domain yields a
row with empty tags and empty Name. -/
theorem C3_per_domain_errors_witness :
    (osRowsLoop "us-east-1" osDescribeClientFail osTagsOk [⟨"dom-a"⟩, ⟨"dom-b"⟩] =
        osRowsLoop "us-east-1" osDescribeClientFail osTagsOk [⟨"dom-b"⟩]) ∧
      (osRowsLoop "us-east-1" osDescribeClientFail osTagsFail [⟨"dom-b"⟩] =
          (osRowsLoop "us-east-1" osDescribeClientFail osTagsFail []).map
            (fun rest =>
              mkOSRow "us-east-1" "dom-b" legacyDomainStatus [] :: rest) ∧
        (mkOSRow "us-east-1" "dom-b" legacyDomainStatus []).Tags = [] ∧
        (mkOSRow "us-east-1" "dom-b" legacyDomainStatus []).Name = "") := by
  constructor
  · exact (C3_per_domain_errors "us-east-1" "dom-a" [⟨"dom-b"⟩]
      osDescribeClientFail osTagsOk "ResourceNotFoundException"
      "arn" emptyDomainStatus (.otherError "x")).1 rfl
  · exact (C3_per_domain_errors "us-east-1" "dom-b" []
      osDescribeClientFail osTagsFail "msg"
      "arn:aws:es:us-east-1:1:domain/old" legacyDomainStatus
      (.otherError "ConnectionClosedError")).2 rfl rfl rfl

lemma combineAll_rows {ρ : Type} (fs : List (PDFrame ρ)) :
    (combineAll fs).rows = (fs.map PDFrame.rows).flatten := by
  cases fs with
  | nil => rfl
  | cons f fs => rfl

/-- C7: the aggregator concatenates the per-region tables — its rows are the
ordered concatenation of the input rows (preserving row order within each
input table), its row count is the sum of the input row counts, and an empty
input sequence yields the empty frame with no defined columns. -/
theorem C7_concat_aggregation {ρ : Type} (fs : List (PDFrame ρ)) :
    (combineAll fs).rows = (fs.map PDFrame.rows).flatten ∧
    (combineAll fs).rows.length = (fs.map (fun f => f.rows.length)).sum ∧
    combineAll ([] : List (PDFrame ρ)) = emptyFrame := by
  refine ⟨combineAll_rows fs, ?_, rfl⟩
  rw [combineAll_rows fs, List.length_flatten, List.map_map]
  rfl

lemma rdsRowsOf_region (region : String) (resp : RDSResponse) :
    ∀ row ∈ rdsRowsOf region resp, row.Region = region := by
  intro row hrow
  simp only [rdsRowsOf, List.mem_map] at hrow
  obtain ⟨db, _, rfl⟩ := hrow
  rfl

lemma fetch_ec2_region (region : String) (call : Except PyErr EC2Response)
    (rows : List EC2Row) (h : fetch_ec2_instances region call = .ok rows) :
    ∀ row ∈ rows, row.Region = region := by
  unfold fetch_ec2_instances at h
  split at h
  · simp only [Except.ok.injEq] at h
    subst h
    intro row hrow
    simp at hrow
  · simp at h
  · simp only [Except.ok.injEq] at h
    subst h
    exact ec2RowsOf_region region _

lemma fetch_rds_region (region : String) (call : Except PyErr RDSResponse)
    (rows : List RDSRow) (h : fetch_rds_instances region call = .ok rows) :
    ∀ row ∈ rows, row.Region = region := by
  unfold fetch_rds_instances at h
  split at h
  · simp only [Except.ok.injEq] at h
    subst h
    intro row hrow
    simp at hrow
  · simp at h
  · simp only [Except.ok.injEq] at h
    subst h
    exact rdsRowsOf_region region _

lemma osRowsLoop_region (region : String)
    (describeApi : String → Except PyErr DomainStatus)
    (tagsApi : String → Except PyErr TagsResponse) :
    ∀ (ds : List DomainEntry) (rows : List OSRow),
      osRowsLoop region describeApi tagsApi ds = .ok rows →
        ∀ row ∈ rows, row.Region = region := by
  intro ds
  induction ds with
  | nil =>
    intro rows h row hrow
    simp only [osRowsLoop, Except.ok.injEq] at h
    subst h
    simp at hrow
  | cons d ds ih =>
    intro rows h row hrow
    rw [osRowsLoop] at h
    split at h
    · exact ih rows h row hrow
    · simp at h
    · split at h
      · simp at h
      · rename_i details rest hrest
        simp only [Except.ok.injEq] at h
        subst h
        rcases List.mem_cons.mp hrow with hrow | hrow
        · subst hrow
          rfl
        · exact ih rest hrest row hrow

lemma fetch_os_region (region : String)
    (listCall : Except PyErr (List DomainEntry))
    (describeApi : String → Except PyErr DomainStatus)
    (tagsApi : String → Except PyErr TagsResponse) (rows : List OSRow)
    (h : fetch_opensearch_domains region listCall describeApi tagsApi = .ok rows) :
    ∀ row ∈ rows, row.Region = region := by
  unfold fetch_opensearch_domains at h
  split at h
  · simp only [Except.ok.injEq] at h
    subst h
    intro row hrow
    simp at hrow
  · simp at h
  · exact osRowsLoop_region region describeApi tagsApi _ rows h

lemma gatherRegions_sound {ρ : Type} (P : String → ρ → Prop)
    (collect : String → Except PyErr (List ρ))
    (hc : ∀ r rows, collect r = .ok rows → ∀ x ∈ rows, P r x) :
    ∀ (regions : List String) (g : List (String × List ρ)),
      gatherRegions collect regions = .ok g →
        ∀ pr ∈ g, ∀ x ∈ pr.2, P pr.1 x := by
  intro regions
  induction regions with
  | nil =>
    intro g hg pr hpr
    simp only [gatherRegions, Except.ok.injEq] at hg
    subst hg
    simp at hpr
  | cons r rs ih =>
    intro g hg pr hpr x hx
    rw [gatherRegions] at hg
    split at hg
    · simp at hg
    · rename_i rows hrows
      split at hg
      · simp at hg
      · rename_i rest hrest
        simp only [Except.ok.injEq] at hg
        subst hg
        rcases List.mem_cons.mp hpr with hpr | hpr
        · subst hpr
          exact hc r rows hrows x hx
        · exact ih rest hrest pr hpr x hx

lemma mem_combineAll_of_gather {ρ : Type} (cols : List String)
    (g : List (String × List ρ)) (row : ρ)
    (hrow : row ∈ (combineAll (g.map (fun pr => PDFrame.mk cols pr.2))).rows) :
    ∃ pr ∈ g, row ∈ pr.2 := by
  rw [combineAll_rows, List.map_map] at hrow
  rcases List.mem_flatten.mp hrow with ⟨s, hs, hrs⟩
  rcases List.mem_map.mp hs with ⟨pr, hpr, rfl⟩
  exact ⟨pr, hpr, hrs⟩

/-- C8: every record produced by any collector carries the region of the
call that produced it, and hence every row of the aggregated per-kind frame
comes from some (region, table) pair of the run with its Region field equal
to that region. -/
theorem C8_region_invariant :
    (∀ (api : String → Except PyErr EC2Response) (regions : List String) g,
      gatherRegions (fun r => fetch_ec2_instances r (api r)) regions = .ok g →
        (∀ pr ∈ g, ∀ row ∈ pr.2, EC2Row.Region row = pr.1) ∧
        ∀ row ∈ (combineAll (g.map (fun pr => PDFrame.mk ec2Columns pr.2))).rows,
          ∃ pr ∈ g, row ∈ pr.2 ∧ EC2Row.Region row = pr.1) ∧
    (∀ (api : String → Except PyErr RDSResponse) (regions : List String) g,
      gatherRegions (fun r => fetch_rds_instances r (api r)) regions = .ok g →
        (∀ pr ∈ g, ∀ row ∈ pr.2, RDSRow.Region row = pr.1) ∧
        ∀ row ∈ (combineAll (g.map (fun pr => PDFrame.mk rdsColumns pr.2))).rows,
          ∃ pr ∈ g, row ∈ pr.2 ∧ RDSRow.Region row = pr.1) ∧
    (∀ (listApi : String → Except PyErr (List DomainEntry))
        (describeApi : String → String → Except PyErr DomainStatus)
        (tagsApi : String → String → Except PyErr TagsResponse)
        (regions : List String) g,
      gatherRegions
          (fun r => fetch_opensearch_domains r (listApi r) (describeApi r)
            (tagsApi r)) regions = .ok g →
        (∀ pr ∈ g, ∀ row ∈ pr.2, OSRow.Region row = pr.1) ∧
        ∀ row ∈ (combineAll (g.map (fun pr => PDFrame.mk osColumns pr.2))).rows,
          ∃ pr ∈ g, row ∈ pr.2 ∧ OSRow.Region row = pr.1) := by
  refine ⟨fun api regions g hg => ?_, fun api regions g hg => ?_,
    fun listApi describeApi tagsApi regions g hg => ?_⟩
  · have hsound := gatherRegions_sound (fun r row => EC2Row.Region row = r)
      (fun r => fetch_ec2_instances r (api r))
      (fun r rows h => fetch_ec2_region r (api r) rows h) regions g hg
    refine ⟨hsound, fun row hrow => ?_⟩
    rcases mem_combineAll_of_gather ec2Columns g row hrow with ⟨pr, hpr, hmem⟩
    exact ⟨pr, hpr, hmem, hsound pr hpr row hmem⟩
  · have hsound := gatherRegions_sound (fun r row => RDSRow.Region row = r)
      (fun r => fetch_rds_instances r (api r))
      (fun r rows h => fetch_rds_region r (api r) rows h) regions g hg
    refine ⟨hsound, fun row hrow => ?_⟩
    rcases mem_combineAll_of_gather rdsColumns g row hrow with ⟨pr, hpr, hmem⟩
    exact ⟨pr, hpr, hmem, hsound pr hpr row hmem⟩
  · have hsound := gatherRegions_sound (fun r row => OSRow.Region row = r)
      (fun r => fetch_opensearch_domains r (listApi r) (describeApi r) (tagsApi r))
      (fun r rows h =>
        fetch_os_region r (listApi r) (describeApi r) (tagsApi r) rows h) regions g hg
    refine ⟨hsound, fun row hrow => ?_⟩
    rcases mem_combineAll_of_gather osColumns g row hrow with ⟨pr, hpr, hmem⟩
    exact ⟨pr, hpr, hmem, hsound pr hpr row hmem⟩

/-- C8 witness: a one-region run with one EC2 instance; the produced row's
Region equals the region of the call. -/
theorem C8_region_invariant_witness :
    (mkEC2Row "ap-south-1" (sampleInst "i-1")).Region = "ap-south-1" := by
  have h := (C8_region_invariant.1 (fun _ => .ok ⟨[⟨[sampleInst "i-1"]⟩]⟩)
    ["ap-south-1"]
    [("ap-south-1", ec2RowsOf "ap-south-1" ⟨[⟨[sampleInst "i-1"]⟩]⟩)] rfl).1
  exact h ("ap-south-1", ec2RowsOf "ap-south-1" ⟨[⟨[sampleInst "i-1"]⟩]⟩)
    (List.mem_singleton.mpr rfl) (mkEC2Row "ap-south-1" (sampleInst "i-1"))
    (by simp [ec2RowsOf])

/-- C9 counterexample: the RDS collector's row dict (file.py lines 48-60)
has no Tags key, so database records carry no tag mapping field. -/
theorem C9_counterexample_rds_no_tags :
    "Tags" ∉ rdsColumns := by
  decide

/-- C9 amended: compute and search-domain records carry Region, a derived
Name and a Tags mapping field; database records carry Region and the derived
Name but no tag mapping field. -/
theorem C9_record_fields :
    ("Region" ∈ ec2Columns ∧ "Name" ∈ ec2Columns ∧ "Tags" ∈ ec2Columns) ∧
    ("Region" ∈ osColumns ∧ "Name" ∈ osColumns ∧ "Tags" ∈ osColumns) ∧
    ("Region" ∈ rdsColumns ∧ "Name" ∈ rdsColumns ∧ "Tags" ∉ rdsColumns) := by
  decide

end FetchAWS
